import Mathlib

/-!
Shallow embedding of the Settings Application Engine of
`src/python/regional_settings_reset.py` (win-regional-reset).

The Python object `RegionalSettingsReset` carries mutable counters
(`operation_count`, `success_count`, `error_count`), a lazily created
`backup_path`, and the class-level locale-settings cache; these become the
explicit state record `AppState`.  The Windows registry (reached through
`winreg`) becomes the explicit `Registry` record; the behaviour of the
underlying facility on a given write attempt (it may raise, or accept the
write while silently coercing the stored value - the reason the code
re-reads and compares) is supplied as an oracle `WriteBehavior`.
The non-Windows demonstration branches are kept, selected by the
`windowsAvailable` flag, exactly as the source branches on
`WINDOWS_AVAILABLE`.
-/

namespace RegionalReset

/-- A registry value: the source uses exactly two concrete kinds,
strings (`REG_SZ`) and integers (`REG_DWORD`). -/
inductive RegValue where
  | str (s : String)
  | int (n : Int)
deriving DecidableEq, Repr

/-- `winreg.REG_SZ` (also the mock's constant). -/
def REG_SZ : Nat := 1

/-- `winreg.REG_DWORD` (also the mock's constant). -/
def REG_DWORD : Nat := 4

/-- `apply_locale_settings` line 371-374: `isinstance(setting_value, int)`
selects `REG_DWORD`, otherwise `REG_SZ`. -/
def regTypeOf : RegValue → Nat
  | .int _ => REG_DWORD
  | .str _ => REG_SZ

/-- Python `dict` lookup on a string-keyed association list
(first match; the source dicts have distinct keys). -/
def lookupStr {α : Type} : List (String × α) → String → Option α
  | [], _ => none
  | (k, v) :: t, q => if k = q then some v else lookupStr t q

/-- `RegionalSettingsConfig.SUPPORTED_LOCALES` (lines 103-116), in source
order. -/
def SUPPORTED_LOCALES : List (String × String) :=
  [("pl-PL", "Polish (Poland)"),
   ("en-US", "English (United States)"),
   ("en-GB", "English (United Kingdom)"),
   ("de-DE", "German (Germany)"),
   ("fr-FR", "French (France)"),
   ("es-ES", "Spanish (Spain)"),
   ("it-IT", "Italian (Italy)"),
   ("pt-PT", "Portuguese (Portugal)"),
   ("ru-RU", "Russian (Russia)"),
   ("zh-CN", "Chinese (Simplified, China)"),
   ("ja-JP", "Japanese (Japan)"),
   ("ko-KR", "Korean (Korea)")]

/-- The `"pl-PL"` entry of `locale_configs` in `_get_locale_settings`
(lines 395-418); `locale` is the function argument, as in the source. -/
def plPLConfig (locale : String) : List (String × RegValue) :=
  [("Locale", .str locale),
   ("LocaleName", .str locale),
   ("sLanguage", .str "PLK"),
   ("sCountry", .str "Poland"),
   ("sShortDate", .str "dd.MM.yyyy"),
   ("sLongDate", .str "d MMMM yyyy"),
   ("sTimeFormat", .str "HH:mm:ss"),
   ("sShortTime", .str "HH:mm"),
   ("sCurrency", .str "zł"),
   ("sMonDecimalSep", .str ","),
   ("sMonThousandSep", .str " "),
   ("sDecimal", .str ","),
   ("sThousand", .str " "),
   ("sList", .str ";"),
   ("iCountry", .int 48),
   ("iCurrency", .int 3),
   ("iCurrDigits", .int 2),
   ("iDate", .int 1),
   ("iTime", .int 1),
   ("iTLZero", .int 1),
   ("s1159", .str ""),
   ("s2359", .str "")]

/-- The `"en-US"` entry of `locale_configs` in `_get_locale_settings`
(lines 419-442). -/
def enUSConfig (locale : String) : List (String × RegValue) :=
  [("Locale", .str locale),
   ("LocaleName", .str locale),
   ("sLanguage", .str "ENU"),
   ("sCountry", .str "United States"),
   ("sShortDate", .str "M/d/yyyy"),
   ("sLongDate", .str "dddd, MMMM d, yyyy"),
   ("sTimeFormat", .str "h:mm:ss tt"),
   ("sShortTime", .str "h:mm tt"),
   ("sCurrency", .str "$"),
   ("sMonDecimalSep", .str "."),
   ("sMonThousandSep", .str ","),
   ("sDecimal", .str "."),
   ("sThousand", .str ","),
   ("sList", .str ","),
   ("iCountry", .int 1),
   ("iCurrency", .int 0),
   ("iCurrDigits", .int 2),
   ("iDate", .int 0),
   ("iTime", .int 0),
   ("iTLZero", .int 0),
   ("s1159", .str "AM"),
   ("s2359", .str "PM")]

/-- The local dict `locale_configs` of `_get_locale_settings`
(lines 394-444): two explicit tables. -/
def localeConfigs (locale : String) : List (String × List (String × RegValue)) :=
  [("pl-PL", plPLConfig locale), ("en-US", enUSConfig locale)]

/-- The fallback profile built as the eagerly evaluated default argument of
`locale_configs.get(locale, {...})` (lines 446-451):
`locale.split('-')[0].upper()` and `SUPPORTED_LOCALES[locale]` (the latter
is the `KeyError` site for unsupported locales, handled in
`getLocaleSettings`). -/
def fallbackProfile (locale display : String) : List (String × RegValue) :=
  [("Locale", .str locale),
   ("LocaleName", .str locale),
   ("sLanguage", .str (((locale.splitOn "-").headD locale).toUpper)),
   ("sCountry", .str display)]

/-- The only exception the engine itself raises before side effects: the
`KeyError` from `SUPPORTED_LOCALES[locale]` on an unsupported locale
(line 450). -/
inductive RSError where
  | unsupportedLocale (locale : String)
deriving DecidableEq, Repr

/-- Mutable state of a `RegionalSettingsReset` object: the counters
initialised to 0 in `__init__` (lines 160-162), the lazily assigned
`backup_path` (initially `""`, line 163), and the class-level
`LOCALE_SETTINGS_CACHE` (line 119). -/
structure AppState where
  operation_count : Nat
  success_count : Nat
  error_count : Nat
  backup_path : String
  cache : List (String × List (String × RegValue))
deriving DecidableEq, Repr

/-- A freshly constructed object (counters 0, no backup path, empty cache). -/
def initState : AppState :=
  { operation_count := 0, success_count := 0, error_count := 0,
    backup_path := "", cache := [] }

/-- `log_info` (lines 247-251): logging only, no counter changes. -/
def log_info (s : AppState) : AppState := s

/-- `log_warning` (lines 253-256): logging only, no counter changes. -/
def log_warning (s : AppState) : AppState := s

/-- `log_error` (lines 258-262): logs and increments `error_count`. -/
def log_error (s : AppState) : AppState :=
  { s with error_count := s.error_count + 1 }

/-- `log_success` (lines 264-268): logs and increments `success_count`. -/
def log_success (s : AppState) : AppState :=
  { s with success_count := s.success_count + 1 }

/-- `validate_locale` (lines 278-280): `locale in SUPPORTED_LOCALES`. -/
def validate_locale (locale : String) : Bool :=
  (lookupStr SUPPORTED_LOCALES locale).isSome

/-- `_get_locale_settings` (lines 388-455): cache lookup, the two explicit
tables, the mechanically derived fallback, and the cache update.  The
default argument of `.get` is evaluated eagerly in Python, so the
`SUPPORTED_LOCALES[locale]` subscript raises `KeyError` on every cache miss
with an unsupported locale, before `.get` consults `locale_configs`. -/
def getLocaleSettings (s : AppState) (locale : String) :
    Except RSError (List (String × RegValue) × AppState) :=
  match lookupStr s.cache locale with
  | some v => .ok (v, s)
  | none =>
    match lookupStr SUPPORTED_LOCALES locale with
    | none => .error (.unsupportedLocale locale)
    | some display =>
      let result := (lookupStr (localeConfigs locale) locale).getD
        (fallbackProfile locale display)
      .ok (result, { s with cache := (locale, result) :: s.cache })

/-- The mutated part of the Windows registry under `HKEY_CURRENT_USER`:
the set of existing subtrees and the stored `(key_path, value_name)`
values. -/
structure Registry where
  keys : List String
  vals : List ((String × String) × RegValue)
deriving DecidableEq, Repr

/-- A registry with no recorded subtrees or values. -/
def emptyRegistry : Registry := { keys := [], vals := [] }

/-- Lookup in the value store (most recent write wins). -/
def lookupKV : List ((String × String) × RegValue) → (String × String) → Option RegValue
  | [], _ => none
  | (k, v) :: t, q => if k = q then some v else lookupKV t q

/-- `winreg.CreateKey`: creates the subtree if absent. -/
def regCreateKey (reg : Registry) (path : String) : Registry :=
  if path ∈ reg.keys then reg else { reg with keys := path :: reg.keys }

/-- `winreg.SetValueEx`: stores a value at `(path, name)`. -/
def regSetValue (reg : Registry) (path name : String) (v : RegValue) : Registry :=
  { reg with vals := ((path, name), v) :: reg.vals }

/-- `winreg.QueryValueEx`: reads back the stored value at `(path, name)`. -/
def regQueryValue (reg : Registry) (path name : String) : Option RegValue :=
  lookupKV reg.vals (path, name)

/-- Oracle for one write attempt of the underlying facility:
either some `winreg` call raises (access denied / unavailable; modelled at
the subtree open, before the store changes), or the facility accepts the
write and actually stores `v` - possibly a silently coerced or truncated
variant of what was written, which is exactly why the source re-reads and
compares (lines 341-344). -/
inductive WriteBehavior where
  | raise
  | coerceTo (v : RegValue)
deriving DecidableEq, Repr

/-- A store behaviour that fails a write of `value`: either the attempt
raises, or the facility stores something other than `value`, so the
read-after-write comparison fails. -/
def failsFor (b : WriteBehavior) (value : RegValue) : Prop :=
  b = .raise ∨ ∃ v, b = .coerceTo v ∧ v ≠ value

/-- The body of one loop iteration of `set_registry_value` (lines 336-344):
`CreateKey`, `SetValueEx`, then `OpenKey`/`QueryValueEx` read-back.
Returns the new registry and `none` if an exception was raised, otherwise
`some ok` where `ok` is the result of `stored_value == value_data`. -/
def writeAndVerify (b : WriteBehavior) (reg : Registry) (path name : String)
    (value : RegValue) : Registry × Option Bool :=
  match b with
  | .raise => (reg, none)
  | .coerceTo v =>
    let reg1 := regSetValue (regCreateKey reg path) path name v
    match regQueryValue reg1 path name with
    | some stored => (reg1, some (decide (stored = value)))
    | none => (reg1, none)

/-- The retry loop of `set_registry_value` (lines 333-354).
`remaining` counts iterations still to run, `attempt` is the Python loop
index; each iteration first increments `operation_count` (line 335).
On success: `log_success`, return `True`.  On an exception: `log_warning`
(no counter) unless it was the final attempt, in which case `log_error`;
the loop then ends and the function returns `False`.  On a silent
verification mismatch nothing is logged and the loop simply continues;
after the final mismatch the function returns `False` without recording
any failure. -/
def setRegistryValueGo (sched : Nat → WriteBehavior) (path name : String)
    (value : RegValue) :
    Nat → Nat → AppState → Registry → AppState × Registry × Bool
  | 0, _, s, reg => (s, reg, false)
  | remaining + 1, attempt, s, reg =>
    let s1 : AppState := { s with operation_count := s.operation_count + 1 }
    match writeAndVerify (sched attempt) reg path name value with
    | (reg1, some ok) =>
      if ok then (log_success s1, reg1, true)
      else setRegistryValueGo sched path name value remaining (attempt + 1) s1 reg1
    | (reg1, none) =>
      if remaining = 0 then (log_error s1, reg1, false)
      else setRegistryValueGo sched path name value remaining (attempt + 1) s1 reg1

/-- `set_registry_value` (lines 320-354).  The non-Windows branch
(lines 323-326) logs a `[DEMO]` line and increments `success_count` only;
the Windows branch runs the retry loop with `maxRetries` iterations.
`sched` is the store-behaviour oracle per attempt index; `valueType` is the
`value_type` argument, passed to `SetValueEx` and otherwise unused by the
control flow. -/
def set_registry_value (windowsAvailable : Bool) (maxRetries : Nat)
    (sched : Nat → WriteBehavior) (path name : String) (value : RegValue)
    (_valueType : Nat) (s : AppState) (reg : Registry) :
    AppState × Registry × Bool :=
  if windowsAvailable = false then
    ({ s with success_count := s.success_count + 1 }, reg, true)
  else
    setRegistryValueGo sched path name value maxRetries 0 s reg

/-- `"Control Panel\\International"` (line 367). -/
def INTL_PATH : String := "Control Panel\\International"

/-- The tuple a finished `apply_locale_settings` leaves behind: the object
state, the registry, the `success` flag it returns, and the observed
per-key outcomes (the return value of each `set_registry_value` call;
`true` = Applied, `false` = Failed). -/
structure ApplyResult where
  state : AppState
  reg : Registry
  success : Bool
  outcomes : List (String × Bool)
deriving DecidableEq, Repr

/-- Result of a call to `apply_locale_settings`: either the `KeyError`
escaped (carrying the object state and registry at that moment), or the
function returned. -/
inductive ApplyOutcome where
  | raised (e : RSError) (state : AppState) (reg : Registry)
  | returned (r : ApplyResult)
deriving DecidableEq, Repr

/-- One iteration of the Windows-branch loop of `apply_locale_settings`
(lines 370-377): compute the value kind, call `set_registry_value`, and
clear `success` if it returned `False`. -/
def liveApplyStep (maxRetries : Nat) (sched : String → Nat → WriteBehavior)
    (acc : ApplyResult) (kv : String × RegValue) : ApplyResult :=
  let r := set_registry_value true maxRetries (sched kv.1) INTL_PATH kv.1 kv.2
    (regTypeOf kv.2) acc.state acc.reg
  { state := r.1, reg := r.2.1, success := acc.success && r.2.2,
    outcomes := acc.outcomes ++ [(kv.1, r.2.2)] }

/-- One iteration of the demo-branch loop of `apply_locale_settings`
(lines 381-384): log the pair and increment both `operation_count` and
`success_count`. -/
def demoApplyStep (acc : ApplyResult) (kv : String × RegValue) : ApplyResult :=
  { acc with
    state := { acc.state with
      operation_count := acc.state.operation_count + 1,
      success_count := acc.state.success_count + 1 },
    outcomes := acc.outcomes ++ [(kv.1, true)] }

/-- `apply_locale_settings` (lines 356-386): resolve the settings (which
may raise `KeyError` for unsupported locales, before any store access),
then either the Windows loop over `set_registry_value` or the demo loop;
`success` starts `True` and the demo branch never clears it. -/
def applyLocaleSettings (windowsAvailable : Bool) (maxRetries : Nat)
    (sched : String → Nat → WriteBehavior) (locale : String)
    (s : AppState) (reg : Registry) : ApplyOutcome :=
  match getLocaleSettings s locale with
  | .error e => .raised e s reg
  | .ok (settings, s1) =>
    if windowsAvailable then
      .returned (settings.foldl (liveApplyStep maxRetries sched)
        { state := s1, reg := reg, success := true, outcomes := [] })
    else
      .returned (settings.foldl demoApplyStep
        { state := s1, reg := reg, success := true, outcomes := [] })

/-- The object state visible after a call to `apply_locale_settings`,
whether it returned or the `KeyError` escaped. -/
def outcomeState : ApplyOutcome → AppState
  | .raised _ s _ => s
  | .returned r => r.state

/-- The registry visible after a call to `apply_locale_settings`. -/
def outcomeRegistry : ApplyOutcome → Registry
  | .raised _ _ reg => reg
  | .returned r => r.reg

/-- The boolean returned by `apply_locale_settings` (an escaped exception
returns nothing and every caller observes failure). -/
def outcomeSuccess : ApplyOutcome → Bool
  | .raised _ _ _ => false
  | .returned r => r.success

/-- The `--locale` command-line path of `main` (lines 943-959), with
`--force` set: `validate_locale` failure exits `1`; otherwise the exit code
is `0` iff `apply_locale_settings` returned `True` (an escaping exception
would also end the interpreter with exit code 1). -/
def mainCliLocale (windowsAvailable : Bool) (maxRetries : Nat)
    (sched : String → Nat → WriteBehavior) (locale : String)
    (s : AppState) (reg : Registry) : Nat :=
  if validate_locale locale = false then 1
  else
    match applyLocaleSettings windowsAvailable maxRetries sched locale s reg with
    | .raised _ _ _ => 1
    | .returned r => if r.success then 0 else 1

/-- Wall-clock reading used by `datetime.now().strftime('%Y%m%d_%H%M%S')`. -/
structure DateStamp where
  year : Nat
  month : Nat
  day : Nat
  hour : Nat
  minute : Nat
  second : Nat
deriving DecidableEq, Repr

/-- Two-digit zero padding of the `%m %d %H %M %S` fields. -/
def pad2 (n : Nat) : String :=
  if n < 10 then "0" ++ toString n else toString n

/-- `strftime('%Y%m%d_%H%M%S')`: the `YYYYMMDD_HHMMSS` stamp. -/
def strftimeStamp (t : DateStamp) : String :=
  toString t.year ++ pad2 t.month ++ pad2 t.day ++ "_"
    ++ pad2 t.hour ++ pad2 t.minute ++ pad2 t.second

/-- `os.path.join` with the Windows separator (backups only run on the
Windows branch). -/
def pathJoin (a b : String) : String := a ++ "\\" ++ b

/-- Environment of one `create_backup` call: the temp directory, the
current time, and whether the spawned `reg export` command exited with
code 0 (an exception from the spawn follows the same `log_error` path as a
non-zero exit). -/
structure BackupEnv where
  tempdir : String
  now : DateStamp
  exportOk : Bool
deriving DecidableEq, Repr

/-- `create_backup` (lines 289-318).  Non-Windows: warn, return `False`.
Windows: on the first call of the run (`backup_path` empty) the snapshot
directory `RegionalSettings_Backup_<stamp>` is created under the temp
directory; later calls reuse it.  The export target is
`<backup_path>\<backup_name>.reg`; success logs via `log_success`
(raising `success_count`), failure via `log_error`.  The middle component
of the result is the export target handed to `reg export`. -/
def create_backup (windowsAvailable : Bool) (env : BackupEnv)
    (_registryPath backupName : String) (s : AppState) :
    AppState × Option String × Bool :=
  if windowsAvailable = false then
    (log_warning s, none, false)
  else
    let s1 : AppState :=
      if s.backup_path = "" then
        { s with backup_path :=
            pathJoin env.tempdir ("RegionalSettings_Backup_" ++ strftimeStamp env.now) }
      else s
    let backupFile := pathJoin s1.backup_path (backupName ++ ".reg")
    if env.exportOk then (log_success s1, some backupFile, true)
    else (log_error s1, some backupFile, false)

/-- The fields interpolated into the report string of
`generate_statistics_report` (lines 512-527). -/
structure StatsReport where
  totalOperations : Nat
  successful : Nat
  failed : Nat
  successRate : ℚ
  backupDirectory : String
deriving DecidableEq, Repr

/-- `generate_statistics_report` (lines 512-527):
`success_rate = (success_count / max(operation_count, 1)) * 100` and
`backup_path or 'None created'`. -/
def generate_statistics_report (s : AppState) : StatsReport :=
  { totalOperations := s.operation_count
    successful := s.success_count
    failed := s.error_count
    successRate := (s.success_count : ℚ) / (max s.operation_count 1 : ℚ) * 100
    backupDirectory := if s.backup_path = "" then "None created" else s.backup_path }

/-! ## Claims -/

/-- C1: for every unsupported locale identifier (any string not a key of
`SUPPORTED_LOCALES`), `apply_locale_settings` fails (the `KeyError` from
profile resolution escapes) before any store mutation: the object state and
the registry at the moment the exception escapes are exactly the input
state and registry, so the attempted/succeeded/failed counters are
unchanged and no write was attempted. -/
theorem c1_unsupported_locale_no_side_effects
    (wa : Bool) (mr : Nat) (sched : String → Nat → WriteBehavior)
    (locale : String) (s : AppState) (reg : Registry)
    (hsup : lookupStr SUPPORTED_LOCALES locale = none)
    (hcache : lookupStr s.cache locale = none) :
    applyLocaleSettings wa mr sched locale s reg =
      .raised (.unsupportedLocale locale) s reg := by
  unfold applyLocaleSettings getLocaleSettings
  rw [hcache, hsup]

/-- Witness for C1 at the spec's example `"xx-XX"` on a fresh object. -/
theorem c1_witness :
    lookupStr SUPPORTED_LOCALES "xx-XX" = none ∧
    lookupStr initState.cache "xx-XX" = none ∧
    applyLocaleSettings false 3 (fun _ _ => .raise) "xx-XX" initState emptyRegistry =
      .raised (.unsupportedLocale "xx-XX") initState emptyRegistry :=
  ⟨rfl, rfl,
    c1_unsupported_locale_no_side_effects false 3 (fun _ _ => .raise) "xx-XX"
      initState emptyRegistry rfl rfl⟩

/-- C2, evaluated at the failing input: in the live branch the counter is
incremented at the top of every retry iteration (line 335), so a single key
whose first write attempt raises and whose second succeeds raises
`operation_count` by 2, not by 1 as the claim states. -/
theorem c2_retry_attempts_inflate_operation_count :
    (set_registry_value true 3
        (fun n => if n = 0 then .raise else .coerceTo (.str "v"))
        INTL_PATH "sDecimal" (.str "v") REG_SZ initState emptyRegistry).1.operation_count
      = 2 ∧
    (set_registry_value true 3
        (fun n => if n = 0 then .raise else .coerceTo (.str "v"))
        INTL_PATH "sDecimal" (.str "v") REG_SZ initState emptyRegistry).2.2 = true :=
  ⟨rfl, rfl⟩

/-- C5 counterexample: the `pl-PL` profile resolved by
`_get_locale_settings` has 22 keys, not 19. -/
theorem c5_plPL_profile_has_22_keys :
    (plPLConfig "pl-PL").length = 22 ∧
    ¬ (plPLConfig "pl-PL").length = 19 ∧
    getLocaleSettings initState "pl-PL" =
      .ok (plPLConfig "pl-PL",
        { initState with cache := [("pl-PL", plPLConfig "pl-PL")] }) :=
  ⟨rfl, by decide, rfl⟩

/-- C5 as amended: applying `pl-PL` in the demo (non-Windows) mode from a
fresh object resolves a 22-key profile and yields attempted = 22,
succeeded = 22, failed = 0 and a success rate of 100 percent. -/
theorem c5_amended_plPL_demo_run :
    (outcomeState (applyLocaleSettings false 3 (fun _ _ => .raise) "pl-PL"
        initState emptyRegistry)).operation_count = 22 ∧
    (outcomeState (applyLocaleSettings false 3 (fun _ _ => .raise) "pl-PL"
        initState emptyRegistry)).success_count = 22 ∧
    (outcomeState (applyLocaleSettings false 3 (fun _ _ => .raise) "pl-PL"
        initState emptyRegistry)).error_count = 0 ∧
    outcomeSuccess (applyLocaleSettings false 3 (fun _ _ => .raise) "pl-PL"
        initState emptyRegistry) = true ∧
    (generate_statistics_report (outcomeState (applyLocaleSettings false 3
        (fun _ _ => .raise) "pl-PL" initState emptyRegistry))).successRate = 100 := by
  refine ⟨rfl, rfl, rfl, rfl, ?_⟩
  have hs : (outcomeState (applyLocaleSettings false 3 (fun _ _ => .raise) "pl-PL"
      initState emptyRegistry)).success_count = 22 := rfl
  have ho : (outcomeState (applyLocaleSettings false 3 (fun _ _ => .raise) "pl-PL"
      initState emptyRegistry)).operation_count = 22 := rfl
  have hm : max (22 : Nat) 1 = 22 := rfl
  simp only [generate_statistics_report, hs, ho, hm]
  norm_num

/-- C6: for every run state the report's success rate is
`succeeded / max(attempted, 1) * 100`, in particular well defined (equal to
`succeeded * 100`) when zero operations were attempted; the report carries
the three counters and shows the backup directory, or the explicit
`"None created"` when none was made. -/
theorem c6_statistics_report_projection (s : AppState) :
    (generate_statistics_report s).successRate =
      (s.success_count : ℚ) / (max s.operation_count 1 : ℚ) * 100 ∧
    (s.operation_count = 0 →
      (generate_statistics_report s).successRate = (s.success_count : ℚ) * 100) ∧
    (generate_statistics_report s).totalOperations = s.operation_count ∧
    (generate_statistics_report s).successful = s.success_count ∧
    (generate_statistics_report s).failed = s.error_count ∧
    (s.backup_path = "" →
      (generate_statistics_report s).backupDirectory = "None created") ∧
    (s.backup_path ≠ "" →
      (generate_statistics_report s).backupDirectory = s.backup_path) := by
  refine ⟨rfl, ?_, rfl, rfl, rfl, ?_, ?_⟩
  · intro h; simp [generate_statistics_report, h]
  · intro h; simp [generate_statistics_report, h]
  · intro h; simp [generate_statistics_report, h]

/-- Witness for C6 on a fresh object (zero attempts, no backup). -/
theorem c6_witness :
    (generate_statistics_report initState).successRate =
      (initState.success_count : ℚ) * 100 ∧
    (generate_statistics_report initState).backupDirectory = "None created" :=
  ⟨(c6_statistics_report_projection initState).2.1 rfl,
   (c6_statistics_report_projection initState).2.2.2.2.2.1 rfl⟩

/-- C10: `log_success` raises `success_count` by one and touches nothing
else; hence the demo branch of `set_registry_value` and a successful
`create_backup` each raise `success_count` while leaving `operation_count`
unchanged, so `success_count ≤ operation_count` is not maintained and the
reported success rate can exceed 100 percent (shown on a concrete run:
one successful backup followed by one first-try registry write gives
succeeded = 2, attempted = 1, rate = 200 percent). -/
theorem c10_success_count_frame :
    (∀ s : AppState, log_success s = { s with success_count := s.success_count + 1 }) ∧
    (∀ (mr : Nat) (sched : Nat → WriteBehavior) (path name : String)
        (value : RegValue) (vt : Nat) (s : AppState) (reg : Registry),
      set_registry_value false mr sched path name value vt s reg =
        ({ s with success_count := s.success_count + 1 }, reg, true)) ∧
    (∀ (env : BackupEnv) (rp lab : String) (s : AppState), env.exportOk = true →
      (create_backup true env rp lab s).1.operation_count = s.operation_count ∧
      (create_backup true env rp lab s).1.success_count = s.success_count + 1) ∧
    ((set_registry_value true 3 (fun _ => .coerceTo (.str "zł")) INTL_PATH
        "sCurrency" (.str "zł") REG_SZ
        (create_backup true ⟨"C:\\Temp", ⟨2025, 1, 2, 3, 4, 5⟩, true⟩
          "HKEY_CURRENT_USER\\Control Panel\\International"
          "International_Quick_Backup" initState).1
        emptyRegistry).1.success_count = 2 ∧
     (set_registry_value true 3 (fun _ => .coerceTo (.str "zł")) INTL_PATH
        "sCurrency" (.str "zł") REG_SZ
        (create_backup true ⟨"C:\\Temp", ⟨2025, 1, 2, 3, 4, 5⟩, true⟩
          "HKEY_CURRENT_USER\\Control Panel\\International"
          "International_Quick_Backup" initState).1
        emptyRegistry).1.operation_count = 1 ∧
     100 < (generate_statistics_report
        (set_registry_value true 3 (fun _ => .coerceTo (.str "zł")) INTL_PATH
          "sCurrency" (.str "zł") REG_SZ
          (create_backup true ⟨"C:\\Temp", ⟨2025, 1, 2, 3, 4, 5⟩, true⟩
            "HKEY_CURRENT_USER\\Control Panel\\International"
            "International_Quick_Backup" initState).1
          emptyRegistry).1).successRate) := by
  refine ⟨fun s => rfl, fun mr sched path name value vt s reg => rfl, ?_, rfl, rfl, ?_⟩
  · intro env rp lab s h
    simp only [create_backup, h, log_success]
    constructor <;> (split_ifs <;> simp_all [log_warning])
  · have hs : (set_registry_value true 3 (fun _ => .coerceTo (.str "zł")) INTL_PATH
        "sCurrency" (.str "zł") REG_SZ
        (create_backup true ⟨"C:\\Temp", ⟨2025, 1, 2, 3, 4, 5⟩, true⟩
          "HKEY_CURRENT_USER\\Control Panel\\International"
          "International_Quick_Backup" initState).1
        emptyRegistry).1.success_count = 2 := rfl
    have ho : (set_registry_value true 3 (fun _ => .coerceTo (.str "zł")) INTL_PATH
        "sCurrency" (.str "zł") REG_SZ
        (create_backup true ⟨"C:\\Temp", ⟨2025, 1, 2, 3, 4, 5⟩, true⟩
          "HKEY_CURRENT_USER\\Control Panel\\International"
          "International_Quick_Backup" initState).1
        emptyRegistry).1.operation_count = 1 := rfl
    have hm : max (1 : Nat) 1 = 1 := rfl
    simp only [generate_statistics_report, hs, ho, hm]
    norm_num

/-- Witness for C10's backup clause at a concrete successful export. -/
theorem c10_witness :
    (create_backup true ⟨"C:\\Temp", ⟨2025, 1, 2, 3, 4, 5⟩, true⟩
        "HKCU\\Control Panel\\International" "pre-change" initState).1.operation_count
      = initState.operation_count ∧
    (create_backup true ⟨"C:\\Temp", ⟨2025, 1, 2, 3, 4, 5⟩, true⟩
        "HKCU\\Control Panel\\International" "pre-change" initState).1.success_count
      = initState.success_count + 1 :=
  c10_success_count_frame.2.2.1 ⟨"C:\\Temp", ⟨2025, 1, 2, 3, 4, 5⟩, true⟩
    "HKCU\\Control Panel\\International" "pre-change" initState rfl

/-- One retry-loop iteration when the attempt raises: `log_warning` and
continue, or `log_error` on the final attempt. -/
theorem setRegistryValueGo_succ_raise (sched : Nat → WriteBehavior) (path name : String)
    (value : RegValue) (k attempt : Nat) (s : AppState) (reg : Registry)
    (hb : sched attempt = .raise) :
    setRegistryValueGo sched path name value (k + 1) attempt s reg =
      if k = 0 then
        (log_error { s with operation_count := s.operation_count + 1 }, reg, false)
      else
        setRegistryValueGo sched path name value k (attempt + 1)
          { s with operation_count := s.operation_count + 1 } reg := by
  simp only [setRegistryValueGo, hb, writeAndVerify]

/-- One retry-loop iteration when the facility accepts the write, storing
`v`: read-back compares `v` with the intended value. -/
theorem setRegistryValueGo_succ_store (sched : Nat → WriteBehavior) (path name : String)
    (value : RegValue) (k attempt : Nat) (s : AppState) (reg : Registry) (v : RegValue)
    (hb : sched attempt = .coerceTo v) :
    setRegistryValueGo sched path name value (k + 1) attempt s reg =
      if v = value then
        (log_success { s with operation_count := s.operation_count + 1 },
          regSetValue (regCreateKey reg path) path name v, true)
      else
        setRegistryValueGo sched path name value k (attempt + 1)
          { s with operation_count := s.operation_count + 1 }
          (regSetValue (regCreateKey reg path) path name v) := by
  simp [setRegistryValueGo, hb, writeAndVerify, regQueryValue, regSetValue, lookupKV,
    decide_eq_true_eq]

/-- When every attempt fails (raise or mismatch), the retry loop makes
exactly one attempt per iteration, never touches `success_count`, and
returns `False`. -/
theorem setRegistryValueGo_allFail (sched : Nat → WriteBehavior) (path name : String)
    (value : RegValue) (hfail : ∀ n, failsFor (sched n) value) :
    ∀ (remaining attempt : Nat) (s : AppState) (reg : Registry),
      (setRegistryValueGo sched path name value remaining attempt s reg).1.operation_count
          = s.operation_count + remaining ∧
      (setRegistryValueGo sched path name value remaining attempt s reg).1.success_count
          = s.success_count ∧
      (setRegistryValueGo sched path name value remaining attempt s reg).2.2 = false := by
  intro remaining
  induction remaining with
  | zero => exact fun attempt s reg => ⟨rfl, rfl, rfl⟩
  | succ k ih =>
    intro attempt s reg
    rcases hfail attempt with hb | ⟨v, hb, hne⟩
    · rw [setRegistryValueGo_succ_raise sched path name value k attempt s reg hb]
      rcases Nat.eq_zero_or_pos k with hk | hk
      · subst hk
        rw [if_pos rfl]
        exact ⟨rfl, rfl, rfl⟩
      · rw [if_neg (Nat.pos_iff_ne_zero.mp hk)]
        obtain ⟨h1, h2, h3⟩ := ih (attempt + 1)
          { s with operation_count := s.operation_count + 1 } reg
        refine ⟨?_, h2, h3⟩
        rw [h1]
        show s.operation_count + 1 + k = s.operation_count + (k + 1)
        omega
    · rw [setRegistryValueGo_succ_store sched path name value k attempt s reg v hb,
        if_neg hne]
      obtain ⟨h1, h2, h3⟩ := ih (attempt + 1)
        { s with operation_count := s.operation_count + 1 }
        (regSetValue (regCreateKey reg path) path name v)
      refine ⟨?_, h2, h3⟩
      rw [h1]
      show s.operation_count + 1 + k = s.operation_count + (k + 1)
      omega

/-- When every attempt raises, the final iteration logs exactly one error. -/
theorem setRegistryValueGo_allRaise (sched : Nat → WriteBehavior) (path name : String)
    (value : RegValue) (hraise : ∀ n, sched n = .raise) :
    ∀ (remaining attempt : Nat) (s : AppState) (reg : Registry), 0 < remaining →
      (setRegistryValueGo sched path name value remaining attempt s reg).1.error_count
        = s.error_count + 1 := by
  intro remaining
  induction remaining with
  | zero => exact fun attempt s reg h => absurd h (lt_irrefl 0)
  | succ k ih =>
    intro attempt s reg _
    rw [setRegistryValueGo_succ_raise sched path name value k attempt s reg (hraise attempt)]
    rcases Nat.eq_zero_or_pos k with hk | hk
    · subst hk
      rw [if_pos rfl]
      rfl
    · rw [if_neg (Nat.pos_iff_ne_zero.mp hk)]
      exact ih (attempt + 1) _ reg hk

/-- When every attempt is a silent verification mismatch, the loop logs
nothing: `error_count` is unchanged. -/
theorem setRegistryValueGo_allMismatch (sched : Nat → WriteBehavior) (path name : String)
    (value : RegValue) (hmis : ∀ n, ∃ v, sched n = .coerceTo v ∧ v ≠ value) :
    ∀ (remaining attempt : Nat) (s : AppState) (reg : Registry),
      (setRegistryValueGo sched path name value remaining attempt s reg).1.error_count
        = s.error_count := by
  intro remaining
  induction remaining with
  | zero => exact fun attempt s reg => rfl
  | succ k ih =>
    intro attempt s reg
    obtain ⟨v, hb, hne⟩ := hmis attempt
    rw [setRegistryValueGo_succ_store sched path name value k attempt s reg v hb, if_neg hne]
    exact ih (attempt + 1) _ _

/-- C3 counterexample: with a store whose writes are all accepted but
silently stored as a different value (a verification mismatch on every
attempt - one of the always-failing stores the claim quantifies over),
`set_registry_value` makes exactly 3 attempts and returns failure, but no
Failed outcome at all is recorded: `error_count` stays 0, not 1 as the
claim states, because the loop body only logs a failure from its exception
handler and a mismatch raises no exception. -/
theorem c3_counterexample :
    (set_registry_value true 3 (fun _ => .coerceTo (.str "PLN")) INTL_PATH "sCurrency"
        (.str "zł") REG_SZ initState emptyRegistry).1.operation_count = 3 ∧
    (set_registry_value true 3 (fun _ => .coerceTo (.str "PLN")) INTL_PATH "sCurrency"
        (.str "zł") REG_SZ initState emptyRegistry).2.2 = false ∧
    (set_registry_value true 3 (fun _ => .coerceTo (.str "PLN")) INTL_PATH "sCurrency"
        (.str "zł") REG_SZ initState emptyRegistry).1.error_count = 0 ∧
    ¬ (set_registry_value true 3 (fun _ => .coerceTo (.str "PLN")) INTL_PATH "sCurrency"
        (.str "zł") REG_SZ initState emptyRegistry).1.error_count = 1 :=
  ⟨rfl, rfl, rfl, by decide⟩

/-- C3 as amended: with a store whose write/verify always fails,
`set_registry_value` performs exactly `maxRetries` write attempts (the
attempted counter rises by exactly `maxRetries`), never records a success,
and returns failure.  Exactly one Failed outcome is recorded when the
attempts fail by raising an error; no Failed outcome is recorded when the
attempts fail by silent verification mismatch. -/
theorem c3_amended_retry_bound (mr : Nat) (sched : Nat → WriteBehavior)
    (path name : String) (value : RegValue) (vt : Nat) (s : AppState) (reg : Registry)
    (hmr : 0 < mr) (hfail : ∀ n, failsFor (sched n) value) :
    (set_registry_value true mr sched path name value vt s reg).1.operation_count
        = s.operation_count + mr ∧
    (set_registry_value true mr sched path name value vt s reg).1.success_count
        = s.success_count ∧
    (set_registry_value true mr sched path name value vt s reg).2.2 = false ∧
    ((∀ n, sched n = .raise) →
      (set_registry_value true mr sched path name value vt s reg).1.error_count
        = s.error_count + 1) ∧
    ((∀ n, ∃ v, sched n = .coerceTo v ∧ v ≠ value) →
      (set_registry_value true mr sched path name value vt s reg).1.error_count
        = s.error_count) := by
  obtain ⟨h1, h2, h3⟩ := setRegistryValueGo_allFail sched path name value hfail mr 0 s reg
  refine ⟨h1, h2, h3, ?_, ?_⟩
  · intro hraise
    exact setRegistryValueGo_allRaise sched path name value hraise mr 0 s reg hmr
  · intro hmis
    exact setRegistryValueGo_allMismatch sched path name value hmis mr 0 s reg

/-- Witness for C3's amended statement: an always-raising store at the
default bound of 3 retries. -/
theorem c3_witness :
    (set_registry_value true 3 (fun _ => .raise) INTL_PATH "sCurrency" (.str "zł")
        REG_SZ initState emptyRegistry).1.operation_count
      = initState.operation_count + 3 ∧
    (set_registry_value true 3 (fun _ => .raise) INTL_PATH "sCurrency" (.str "zł")
        REG_SZ initState emptyRegistry).2.2 = false ∧
    (set_registry_value true 3 (fun _ => .raise) INTL_PATH "sCurrency" (.str "zł")
        REG_SZ initState emptyRegistry).1.error_count
      = initState.error_count + 1 := by
  have h := c3_amended_retry_bound 3 (fun _ => .raise) INTL_PATH "sCurrency" (.str "zł")
    REG_SZ initState emptyRegistry (by norm_num) (fun n => Or.inl rfl)
  exact ⟨h.1, h.2.2.1, h.2.2.2.1 (fun n => rfl)⟩

/-- Lookup of a freshly consed binding. -/
theorem lookupKV_cons_self (l : List ((String × String) × RegValue)) (k : String × String)
    (v : RegValue) : lookupKV ((k, v) :: l) k = some v := by
  simp [lookupKV]

/-- A completed (non-raising) write stores the coerced value and reads it
back for the comparison. -/
theorem writeAndVerify_coerceTo (v : RegValue) (reg : Registry) (path name : String)
    (value : RegValue) :
    writeAndVerify (.coerceTo v) reg path name value =
      (regSetValue (regCreateKey reg path) path name v, some (decide (v = value))) := by
  simp [writeAndVerify, regQueryValue, regSetValue, lookupKV]

/-- If the retry loop reports success, some attempt within the bound had
the facility store exactly the intended value. -/
theorem setRegistryValueGo_true_exists (sched : Nat → WriteBehavior) (path name : String)
    (value : RegValue) :
    ∀ (remaining attempt : Nat) (s : AppState) (reg : Registry),
      (setRegistryValueGo sched path name value remaining attempt s reg).2.2 = true →
      ∃ n, attempt ≤ n ∧ n < attempt + remaining ∧ sched n = .coerceTo value := by
  intro remaining
  induction remaining with
  | zero =>
    intro attempt s reg h
    exact absurd h (by simp [setRegistryValueGo])
  | succ k ih =>
    intro attempt s reg h
    cases hb : sched attempt with
    | raise =>
      rw [setRegistryValueGo_succ_raise sched path name value k attempt s reg hb] at h
      rcases Nat.eq_zero_or_pos k with hk | hk
      · subst hk
        rw [if_pos rfl] at h
        exact absurd h (by simp)
      · rw [if_neg (Nat.pos_iff_ne_zero.mp hk)] at h
        obtain ⟨n, hn1, hn2, hn3⟩ := ih (attempt + 1) _ _ h
        exact ⟨n, by omega, by omega, hn3⟩
    | coerceTo v =>
      rw [setRegistryValueGo_succ_store sched path name value k attempt s reg v hb] at h
      by_cases hv : v = value
      · exact ⟨attempt, le_refl _, by omega, by rw [hb, hv]⟩
      · rw [if_neg hv] at h
        obtain ⟨n, hn1, hn2, hn3⟩ := ih (attempt + 1) _ _ h
        exact ⟨n, by omega, by omega, hn3⟩

/-- A fold step that conjoins one per-key boolean and appends the matching
outcome preserves `success = all outcomes applied`. -/
theorem foldl_success_eq_all (step : ApplyResult → (String × RegValue) → ApplyResult)
    (hstep : ∀ acc kv, ∃ ok, (step acc kv).success = (acc.success && ok) ∧
        (step acc kv).outcomes = acc.outcomes ++ [(kv.1, ok)]) :
    ∀ (l : List (String × RegValue)) (acc : ApplyResult),
      acc.success = acc.outcomes.all (fun p => p.2) →
      (l.foldl step acc).success = (l.foldl step acc).outcomes.all (fun p => p.2) := by
  intro l
  induction l with
  | nil => exact fun acc h => h
  | cons kv t ih =>
    intro acc h
    rw [List.foldl_cons]
    apply ih
    obtain ⟨ok, h1, h2⟩ := hstep acc kv
    rw [h1, h2, h]
    simp [List.all_append, Bool.and_comm]

/-- C4: `apply_locale_settings` returns `True` iff no key ended `Failed`
(iff every recorded per-key outcome is a success), and the `--locale`
command-line path exits with code 1 when the locale fails validation and
otherwise with code 0 exactly when the application reported full
success. -/
theorem c4_return_iff_no_failed_and_exit_codes
    (wa : Bool) (mr : Nat) (sched : String → Nat → WriteBehavior) (locale : String)
    (s : AppState) (reg : Registry) :
    (∀ r : ApplyResult,
      applyLocaleSettings wa mr sched locale s reg = .returned r →
        (r.success = true ↔ ∀ p ∈ r.outcomes, p.2 = true)) ∧
    (validate_locale locale = false →
      mainCliLocale wa mr sched locale s reg = 1) ∧
    (∀ r : ApplyResult,
      applyLocaleSettings wa mr sched locale s reg = .returned r →
      validate_locale locale = true →
      mainCliLocale wa mr sched locale s reg = if r.success = true then 0 else 1) := by
  refine ⟨?_, ?_, ?_⟩
  · intro r hr
    have hinv : r.success = r.outcomes.all (fun p => p.2) := by
      unfold applyLocaleSettings at hr
      split at hr
      · simp at hr
      · split at hr
        · injection hr with h
          subst h
          exact foldl_success_eq_all (liveApplyStep mr sched)
            (fun acc kv => ⟨(set_registry_value true mr (sched kv.1) INTL_PATH kv.1 kv.2
              (regTypeOf kv.2) acc.state acc.reg).2.2, rfl, rfl⟩) _ _ rfl
        · injection hr with h
          subst h
          exact foldl_success_eq_all demoApplyStep
            (fun acc kv => ⟨true, by simp [demoApplyStep], by simp [demoApplyStep]⟩) _ _ rfl
    rw [hinv]
    simp [List.all_eq_true]
  · intro h
    simp [mainCliLocale, h]
  · intro r hr hv
    simp [mainCliLocale, hv, hr]

/-- Witness for C4: the unsupported locale `"xx-XX"` exits 1, and a demo
run on `"en-US"` succeeds and exits 0. -/
theorem c4_witness :
    mainCliLocale false 3 (fun _ _ => .raise) "xx-XX" initState emptyRegistry = 1 ∧
    mainCliLocale false 3 (fun _ _ => .raise) "en-US" initState emptyRegistry = 0 := by
  have happly : applyLocaleSettings false 3 (fun _ _ => .raise) "en-US"
      initState emptyRegistry
      = .returned ((enUSConfig "en-US").foldl demoApplyStep
          { state := { initState with cache := [("en-US", enUSConfig "en-US")] },
            reg := emptyRegistry, success := true, outcomes := [] }) := rfl
  refine ⟨(c4_return_iff_no_failed_and_exit_codes false 3 (fun _ _ => .raise) "xx-XX"
      initState emptyRegistry).2.1 rfl, ?_⟩
  have h := (c4_return_iff_no_failed_and_exit_codes false 3 (fun _ _ => .raise) "en-US"
      initState emptyRegistry).2.2 _ happly rfl
  rw [h]
  rfl

/-- C8: in the live branch, a completed write creates the subtree if it
was absent, stores the (possibly coerced) value, and immediately reads the
same key back: the read-back returns exactly what was stored, the
comparison succeeds iff that equals the intended value, and
`set_registry_value` can only report success if some attempt within the
retry bound actually stored the intended value. -/
theorem c8_write_readback_verification (v value : RegValue) (reg : Registry)
    (path name : String) :
    path ∈ (writeAndVerify (.coerceTo v) reg path name value).1.keys ∧
    regQueryValue (writeAndVerify (.coerceTo v) reg path name value).1 path name
      = some v ∧
    ((writeAndVerify (.coerceTo v) reg path name value).2 = some true ↔ v = value) ∧
    (∀ (mr : Nat) (sched : Nat → WriteBehavior) (vt : Nat) (s : AppState) (rg : Registry),
      (set_registry_value true mr sched path name value vt s rg).2.2 = true →
      ∃ n, n < mr ∧ sched n = .coerceTo value) := by
  refine ⟨?_, ?_, ?_, ?_⟩
  · rw [writeAndVerify_coerceTo]
    show path ∈ (regCreateKey reg path).keys
    unfold regCreateKey
    split
    · assumption
    · exact List.mem_cons_self _ _
  · rw [writeAndVerify_coerceTo]
    exact lookupKV_cons_self _ _ _
  · rw [writeAndVerify_coerceTo]
    simp
  · intro mr sched vt s rg h
    obtain ⟨n, hn1, hn2, hn3⟩ :=
      setRegistryValueGo_true_exists sched path name value mr 0 s rg h
    exact ⟨n, by omega, hn3⟩

/-- Witness for C8's success clause: a first-try matching write within the
default bound of 3 retries. -/
theorem c8_witness :
    ∃ n, n < 3 ∧ (fun _ : Nat => WriteBehavior.coerceTo (RegValue.str "$")) n
      = WriteBehavior.coerceTo (RegValue.str "$") :=
  (c8_write_readback_verification (.str "$") (.str "$") emptyRegistry INTL_PATH
    "sCurrency").2.2.2 3 (fun _ => .coerceTo (.str "$")) REG_SZ initState
    emptyRegistry rfl

/-- A joined path is never the empty string (it contains the separator). -/
theorem pathJoin_ne_empty (a b : String) : pathJoin a b ≠ "" := by
  intro h
  have h1 : (pathJoin a b).length = 0 := h ▸ rfl
  unfold pathJoin at h1
  rw [String.length_append, String.length_append] at h1
  have h2 : ("\\" : String).length = 1 := rfl
  omega

/-- Shape of one Windows-branch `create_backup` call: the directory is the
timestamp-named one on a first call and the already-recorded one
otherwise, and the export always targets `<backup_path>\<label>.reg`. -/
theorem create_backup_shape (env : BackupEnv) (rp lab : String) (s : AppState) :
    (create_backup true env rp lab s).1.backup_path
        = (if s.backup_path = "" then
            pathJoin env.tempdir ("RegionalSettings_Backup_" ++ strftimeStamp env.now)
          else s.backup_path) ∧
    (create_backup true env rp lab s).2.1
        = some (pathJoin
            (if s.backup_path = "" then
              pathJoin env.tempdir ("RegionalSettings_Backup_" ++ strftimeStamp env.now)
            else s.backup_path) (lab ++ ".reg")) := by
  simp only [create_backup]
  constructor <;> (split_ifs <;> simp_all [log_success, log_error])

/-- C7: within one run at most one snapshot directory exists: the first
`create_backup` call names it with the fixed prefix plus the
`YYYYMMDD_HHMMSS` stamp of `strftime`, every later call (whatever its
wall-clock time) reuses exactly that directory, and each call hands
`reg export` exactly one target file `<label>.reg` inside it. -/
theorem c7_single_backup_directory (env env2 : BackupEnv) (rp1 rp2 lab1 lab2 : String)
    (s : AppState) (hfresh : s.backup_path = "") :
    (create_backup true env rp1 lab1 s).1.backup_path
        = pathJoin env.tempdir ("RegionalSettings_Backup_" ++ strftimeStamp env.now) ∧
    (create_backup true env rp1 lab1 s).2.1
        = some (pathJoin (create_backup true env rp1 lab1 s).1.backup_path
            (lab1 ++ ".reg")) ∧
    (create_backup true env2 rp2 lab2 (create_backup true env rp1 lab1 s).1).1.backup_path
        = (create_backup true env rp1 lab1 s).1.backup_path ∧
    (create_backup true env2 rp2 lab2 (create_backup true env rp1 lab1 s).1).2.1
        = some (pathJoin (create_backup true env rp1 lab1 s).1.backup_path
            (lab2 ++ ".reg")) ∧
    (∀ (envX : BackupEnv) (rp lab : String) (sX : AppState), sX.backup_path ≠ "" →
      (create_backup true envX rp lab sX).1.backup_path = sX.backup_path) := by
  obtain ⟨ha, hb⟩ := create_backup_shape env rp1 lab1 s
  rw [if_pos hfresh] at ha hb
  have hne : (create_backup true env rp1 lab1 s).1.backup_path ≠ "" := by
    rw [ha]
    exact pathJoin_ne_empty _ _
  obtain ⟨hc, hd⟩ := create_backup_shape env2 rp2 lab2 (create_backup true env rp1 lab1 s).1
  rw [if_neg hne] at hc hd
  refine ⟨ha, by rw [ha]; exact hb, hc, hd, ?_⟩
  intro envX rp lab sX h
  have hX := (create_backup_shape envX rp lab sX).1
  rwa [if_neg h] at hX

/-- Witness for C7 at a concrete first call on a fresh run. -/
theorem c7_witness :
    (create_backup true ⟨"C:\\Temp", ⟨2025, 1, 2, 3, 4, 5⟩, true⟩
        "HKEY_CURRENT_USER\\Control Panel\\International" "pre-change"
        initState).1.backup_path
      = pathJoin "C:\\Temp"
          ("RegionalSettings_Backup_" ++ strftimeStamp ⟨2025, 1, 2, 3, 4, 5⟩) :=
  (c7_single_backup_directory ⟨"C:\\Temp", ⟨2025, 1, 2, 3, 4, 5⟩, true⟩
    ⟨"C:\\Temp", ⟨2025, 1, 2, 3, 4, 6⟩, true⟩
    "HKEY_CURRENT_USER\\Control Panel\\International"
    "HKEY_CURRENT_USER\\Control Panel\\International"
    "pre-change" "International_Quick_Backup" initState rfl).1

/-- The demo loop records one applied outcome per key, in order. -/
theorem foldl_demoApplyStep_outcomes (l : List (String × RegValue)) :
    ∀ acc : ApplyResult,
      (l.foldl demoApplyStep acc).outcomes
        = acc.outcomes ++ l.map (fun kv => (kv.1, true)) := by
  induction l with
  | nil => intro acc; simp
  | cons kv t ih =>
    intro acc
    rw [List.foldl_cons, ih]
    simp [demoApplyStep, List.append_assoc]

/-- C9: applying `en-US` twice in the demo (non-Windows) mode: the first
run resolves and caches the profile, the second hits the cache, and the
two runs record identical per-key outcomes (every key applied) and
identical increments of the attempted/succeeded/failed counters. -/
theorem c9_demo_apply_idempotent (mr : Nat) (sched : String → Nat → WriteBehavior)
    (s : AppState) (reg : Registry)
    (hcache : lookupStr s.cache "en-US" = none) :
    ∃ r1 r2 : ApplyResult,
      applyLocaleSettings false mr sched "en-US" s reg = .returned r1 ∧
      applyLocaleSettings false mr sched "en-US" r1.state r1.reg = .returned r2 ∧
      r1.outcomes = r2.outcomes ∧
      (∀ p ∈ r1.outcomes, p.2 = true) ∧
      r1.state.operation_count - s.operation_count
        = r2.state.operation_count - r1.state.operation_count ∧
      r1.state.success_count - s.success_count
        = r2.state.success_count - r1.state.success_count ∧
      r1.state.error_count - s.error_count
        = r2.state.error_count - r1.state.error_count := by
  have hget1 : getLocaleSettings s "en-US" = .ok (enUSConfig "en-US",
      { s with cache := ("en-US", enUSConfig "en-US") :: s.cache }) := by
    unfold getLocaleSettings
    rw [hcache]
    rfl
  refine ⟨(enUSConfig "en-US").foldl demoApplyStep
      { state := { s with cache := ("en-US", enUSConfig "en-US") :: s.cache },
        reg := reg, success := true, outcomes := [] },
    (enUSConfig "en-US").foldl demoApplyStep
      { state := ((enUSConfig "en-US").foldl demoApplyStep
          { state := { s with cache := ("en-US", enUSConfig "en-US") :: s.cache },
            reg := reg, success := true, outcomes := [] }).state,
        reg := ((enUSConfig "en-US").foldl demoApplyStep
          { state := { s with cache := ("en-US", enUSConfig "en-US") :: s.cache },
            reg := reg, success := true, outcomes := [] }).reg,
        success := true, outcomes := [] }, ?_, ?_, ?_, ?_, ?_, ?_, ?_⟩
  · unfold applyLocaleSettings
    rw [hget1]
    rfl
  · rfl
  · rfl
  · intro p hp
    rw [foldl_demoApplyStep_outcomes] at hp
    simp only [List.nil_append, List.mem_map] at hp
    obtain ⟨kv, _, rfl⟩ := hp
    rfl
  · show (s.operation_count + 22) - s.operation_count
        = (s.operation_count + 44) - (s.operation_count + 22)
    omega
  · show (s.success_count + 22) - s.success_count
        = (s.success_count + 44) - (s.success_count + 22)
    omega
  · show s.error_count - s.error_count = s.error_count - s.error_count
    rfl

/-- Witness for C9 on a fresh object. -/
theorem c9_witness :
    ∃ r1 r2 : ApplyResult,
      applyLocaleSettings false 3 (fun _ _ => .raise) "en-US" initState emptyRegistry
        = .returned r1 ∧
      applyLocaleSettings false 3 (fun _ _ => .raise) "en-US" r1.state r1.reg
        = .returned r2 ∧
      r1.outcomes = r2.outcomes ∧
      (∀ p ∈ r1.outcomes, p.2 = true) ∧
      r1.state.operation_count - initState.operation_count
        = r2.state.operation_count - r1.state.operation_count ∧
      r1.state.success_count - initState.success_count
        = r2.state.success_count - r1.state.success_count ∧
      r1.state.error_count - initState.error_count
        = r2.state.error_count - r1.state.error_count :=
  c9_demo_apply_idempotent 3 (fun _ _ => .raise) initState emptyRegistry rfl

end RegionalReset
